import Mathlib

/-
Shallow embedding of src/index.tsx (Spanish-English Learning Hub, a React
single-page app). Each React event handler becomes a pure state-transition
function; the external generative API and the browser JSON parser are
modelled as explicit arguments (`Except Unit _` outcomes: `.error` is a
thrown exception, caught by the handler's try/catch). Each handler also
returns the list of requests it issued to the external API, so that
request-counting properties can be stated.
-/

namespace LearningHub

/-- One Spanish-English phrase pair of the static vocabulary table
(src/index.tsx lines 8-27). -/
structure PhrasePair where
  spanish : String
  english : String
deriving DecidableEq, Repr

/-- The three vocabulary categories (keys of `vocabularyData`). -/
inductive VocabCategory where
  | Greetings
  | Travel
  | Food
deriving DecidableEq, Repr

/-- The static vocabulary lookup table `vocabularyData` (lines 8-27). -/
def vocabularyData : VocabCategory → List PhrasePair
  | .Greetings =>
      [⟨"Hola", "Hello"⟩,
       ⟨"¿Cómo estás?", "How are you?"⟩,
       ⟨"Buenos días", "Good morning"⟩,
       ⟨"Gracias", "Thank you"⟩]
  | .Travel =>
      [⟨"¿Dónde está la estación de tren?", "Where is the train station?"⟩,
       ⟨"Quisiera un boleto para...", "I would like a ticket to..."⟩,
       ⟨"El aeropuerto", "The airport"⟩,
       ⟨"La cuenta, por favor", "The check, please"⟩]
  | .Food =>
      [⟨"Agua", "Water"⟩,
       ⟨"Pollo", "Chicken"⟩,
       ⟨"Me gustaría pedir...", "I would like to order..."⟩,
       ⟨"Delicioso", "Delicious"⟩]

/-- The JS `String.prototype.trim()`: drop leading and trailing whitespace.
Modelled on the character list so that it evaluates by kernel reduction. -/
def jsTrim (s : String) : String :=
  ⟨((s.data.dropWhile Char.isWhitespace).reverse.dropWhile Char.isWhitespace).reverse⟩

/-- A request to the external generative API (`ai.models.generateContent`):
the model name, the prompt string (`contents`), and the declared response
shape: `responseMimeType` and whether a `responseSchema` is declared in the
request config. -/
structure ApiRequest where
  model : String
  contents : String
  responseMimeType : Option String
  hasResponseSchema : Bool
deriving DecidableEq, Repr

/-- The prompt built by `handleSearch` (line 59). -/
def dictSearchPrompt (query : String) : String :=
  "Provide a dictionary entry for the word/phrase \"" ++ query ++
    "\". Detect if it's Spanish or English. Give the main translation, a short definition in the translated language, and a simple example sentence."

/-- The request `handleSearch` issues (lines 57-73): model gemini-2.5-flash,
JSON mime type, and a declared response schema. -/
def dictSearchRequest (query : String) : ApiRequest :=
  { model := "gemini-2.5-flash"
    contents := dictSearchPrompt query
    responseMimeType := some "application/json"
    hasResponseSchema := true }

/-- The prompt built by `handleCheck` (line 158). -/
def checkPrompt (text : String) : String :=
  "You are a language tutor. Analyze the following text and provide grammar and spelling corrections. For each correction, explain the error simply. Text: \"" ++
    text ++ "\""

/-- The request `handleCheck` issues (lines 156-178): model gemini-2.5-flash,
JSON mime type, and a declared response schema. -/
def checkRequest (text : String) : ApiRequest :=
  { model := "gemini-2.5-flash"
    contents := checkPrompt text
    responseMimeType := some "application/json"
    hasResponseSchema := true }

/-- The fixed target phrase of the pronunciation practice view (line 224). -/
def PHRASE : String := "The quick brown fox jumps over the lazy dog."

/-- The prompt built by `getFeedback` (lines 274-277); the indentation and
line breaks of the template literal are kept. -/
def feedbackPrompt (transcript : String) : String :=
  "A user is practicing their English pronunciation.\n                The target phrase is: \"" ++
    PHRASE ++ "\"\n                The user said: \"" ++ transcript ++
    "\"\n                Provide brief, constructive feedback on their pronunciation, pointing out one or two key areas for improvement. Be encouraging."

/-- The request `getFeedback` issues (lines 272-278): model gemini-2.5-flash
and the prompt only; its config declares no response mime type and no
response schema. -/
def feedbackRequest (transcript : String) : ApiRequest :=
  { model := "gemini-2.5-flash"
    contents := feedbackPrompt transcript
    responseMimeType := none
    hasResponseSchema := false }

/-- The generic error message of the dictionary search handler (line 78). -/
def dictErrorMessage : String :=
  "Sorry, I couldn't find that. Please try another word."

/-- The generic error message of the text-correction handler (line 183). -/
def checkErrorMessage : String := "Could not process the text. Please try again."

/-- The generic error message of the pronunciation feedback handler (line 282). -/
def feedbackErrorMessage : String := "Sorry, couldn't get feedback right now."

/-- The parsed JSON dictionary entry (response schema of `handleSearch`,
lines 62-71, consumed by the render at lines 107-123). The source's `example`
field is `example_sentence` here (`example` is a Lean keyword). -/
structure DictEntry where
  original_word : String
  translation : String
  definition : String
  example_sentence : String
  translated_lang_code : String
deriving DecidableEq, Repr

/-- One correction of the text-correction response (schema lines 162-176). -/
structure Correction where
  original : String
  corrected : String
  explanation : String
deriving DecidableEq, Repr

/-- The `Dictionary` component's state hooks (lines 46-49). -/
structure DictState where
  query : String
  loading : Bool
  error : String
  result : Option DictEntry
deriving DecidableEq, Repr

/-- The state of `Dictionary` right after `handleSearch` has issued its
request and before the reply arrives (lines 53-55): loading set, error and
result cleared. -/
def dictPending (s : DictState) : DictState :=
  { s with loading := true, error := "", result := none }

/-- `handleSearch` (lines 51-82). `parseDict` models `JSON.parse` applied to
`response.text` (both the awaited call and the parse throw into the same
catch): `.error` is a throw, `.ok none` a parse that succeeds with a falsy
value (e.g. the reply "null"), so `setResult` stores an unset value, and
`.ok (some d)` a truthy parsed entry. `ai` is whether the GoogleGenAI client
initialized (lines 32-37); `api` is the outcome of the awaited
`generateContent` call. Returns the new state and the list of API requests
issued. -/
def handleSearch (parseDict : String → Except Unit (Option DictEntry)) (ai : Bool)
    (s : DictState) (api : Except Unit String) : DictState × List ApiRequest :=
  if jsTrim s.query = "" ∨ ai = false then (s, [])
  else
    let s1 := dictPending s
    let s2 :=
      match api with
      | .error _ => { s1 with error := dictErrorMessage }
      | .ok text =>
          match parseDict text with
          | .error _ => { s1 with error := dictErrorMessage }
          | .ok data => { s1 with result := data }
    ({ s2 with loading := false }, [dictSearchRequest s.query])

/-- A call to `window.speechSynthesis.speak` on a `SpeechSynthesisUtterance`:
the utterance's text and its `lang` tag. -/
structure Utterance where
  text : String
  lang : String
deriving DecidableEq, Repr

/-- `speak` of the `Dictionary` and `Vocabulary` components (lines 84-88 and
320-324): builds an utterance from a text and a language tag. -/
def speak (text lang : String) : Utterance := ⟨text, lang⟩

/-- The pronounce button of the dictionary result card (line 113): speaks the
translation in the translated language. -/
def dictPronounceUtterance (r : DictEntry) : Utterance :=
  speak r.translation r.translated_lang_code

/-- `speakPhrase` of `PronunciationPractice` (lines 288-292). -/
def speakPhrase : Utterance := ⟨PHRASE, "en-US"⟩

/-- The Spanish pronounce button of a vocabulary item (line 347). -/
def vocabSpeakSpanish (item : PhrasePair) : Utterance := speak item.spanish "es-ES"

/-- The English pronounce button of a vocabulary item (line 348). -/
def vocabSpeakEnglish (item : PhrasePair) : Utterance := speak item.english "en-US"

/-- The `TextCorrection` component's state hooks (lines 145-148). -/
structure TCState where
  text : String
  loading : Bool
  error : String
  corrections : Option (List Correction)
deriving DecidableEq, Repr

/-- The state of `TextCorrection` right after `handleCheck` has issued its
request (lines 152-154): loading set, error and corrections cleared. -/
def checkPending (s : TCState) : TCState :=
  { s with loading := true, error := "", corrections := none }

/-- `handleCheck` (lines 150-187). `parseCorr` models `JSON.parse` of
`response.text` followed by the `data.corrections` field access (lines
179-180): `.error` is a throw anywhere in that chain (a malformed reply, or
a reply like "null" whose property access throws), `.ok none` a parse that
succeeds on a value without a truthy `corrections` field (e.g. the reply
"[]": `setCorrections(undefined)` stores an unset value), and `.ok (some cs)`
the declared array. -/
def handleCheck (parseCorr : String → Except Unit (Option (List Correction))) (ai : Bool)
    (s : TCState) (api : Except Unit String) : TCState × List ApiRequest :=
  if jsTrim s.text = "" ∨ ai = false then (s, [])
  else
    let s1 := checkPending s
    let s2 :=
      match api with
      | .error _ => { s1 with error := checkErrorMessage }
      | .ok text =>
          match parseCorr text with
          | .error _ => { s1 with error := checkErrorMessage }
          | .ok cs => { s1 with corrections := cs }
    ({ s2 with loading := false }, [checkRequest s.text])

/-- The `PronunciationPractice` component's state hooks (lines 225-229);
`recognition` is whether a SpeechRecognition object was created by the mount
effect (lines 231-253). -/
structure PronState where
  isRecording : Bool
  transcribedText : String
  feedback : String
  loading : Bool
  recognition : Bool
deriving DecidableEq, Repr

/-- The state of `PronunciationPractice` right after `getFeedback` has issued
its request (lines 269-270): loading set, feedback cleared. -/
def pronPending (s : PronState) : PronState :=
  { s with loading := true, feedback := "" }

/-- `getFeedback` (lines 267-286): no response schema is declared and the
raw reply text is stored directly into `feedback` (line 279); on a thrown
call the generic message goes into `feedback` (line 282). -/
def getFeedback (ai : Bool) (s : PronState) (transcript : String)
    (api : Except Unit String) : PronState × List ApiRequest :=
  if transcript = "" ∨ ai = false then (s, [])
  else
    let s1 := pronPending s
    let s2 :=
      match api with
      | .error _ => { s1 with feedback := feedbackErrorMessage }
      | .ok text => { s1 with feedback := text }
    ({ s2 with loading := false }, [feedbackRequest transcript])

/-- The `recog.onresult` handler (lines 239-243): stores the transcript into
`transcribedText` and calls `getFeedback` with it. -/
def recognitionOnResult (ai : Bool) (s : PronState) (transcript : String)
    (api : Except Unit String) : PronState × List ApiRequest :=
  getFeedback ai { s with transcribedText := transcript } transcript api

/-- A command sent to the SpeechRecognition object by `toggleRecording`. -/
inductive RecognitionCmd where
  | start
  | stop
deriving DecidableEq, Repr

/-- `toggleRecording` (lines 255-265): stop when recording; otherwise clear
the transcript and feedback and start; flip `isRecording` either way. -/
def toggleRecording (s : PronState) : PronState × List RecognitionCmd :=
  if s.recognition = false then (s, [])
  else if s.isRecording then
    ({ s with isRecording := false }, [.stop])
  else
    ({ s with transcribedText := "", feedback := "", isRecording := true }, [.start])

/-- The `disabled` attribute of the dictionary search button (line 101). -/
def dictSearchButtonDisabled (s : DictState) : Bool := s.loading

/-- The `disabled` attribute of the text-correction check button (line 197). -/
def checkButtonDisabled (s : TCState) : Bool := s.loading

/-- The recording toggle button of `PronunciationPractice` (line 305) carries
no `disabled` attribute: it is never disabled. -/
def recordButtonDisabled (_ : PronState) : Bool := false

/-- The three tab names rendered by `App`'s nav, in order (lines 377-385),
which are also the exact arguments of the `setActiveTab` calls. -/
def tabNames : List String := ["dictionary", "practice", "vocabulary"]

/-- The initial `activeTab` state of `App` (line 359). -/
def initialActiveTab : String := "dictionary"

/-- The tab buttons `App` renders (lines 361-368 and 376-386): none when the
AI client failed to initialize (the error screen replaces the whole UI),
otherwise the three tabs. -/
def renderedTabButtons (ai : Bool) : List String :=
  if ai then tabNames else []

/-- The tab contents `App` mounts (lines 388-392): for each tab name, its
component is rendered exactly when `activeTab` equals that name. -/
def renderedTabContents (ai : Bool) (activeTab : String) : List String :=
  if ai then tabNames.filter (fun t => t == activeTab) else []

/-- An `activeTab` value is reachable when it is the initial value or an
argument of some `setActiveTab` call (lines 377-385). -/
def reachableActiveTab (a : String) : Prop :=
  a = initialActiveTab ∨ a ∈ tabNames

/-- The whole program's state: the vocabulary table (a module-level `const`,
lines 8-27, included so that its preservation by every operation can be
stated) together with every component's hook state. -/
structure ProgramState where
  vocab : VocabCategory → List PhrasePair
  activeTab : String
  dict : DictState
  tc : TCState
  pron : PronState
  vocabCategory : VocabCategory

/-- The program's state on startup (`useState` initial values; `recog` is
whether the browser provides SpeechRecognition, line 233-234). -/
def initialProgramState (recog : Bool) : ProgramState :=
  { vocab := vocabularyData
    activeTab := initialActiveTab
    dict := ⟨"", false, "", none⟩
    tc := ⟨"", false, "", none⟩
    pron := ⟨false, "", "", false, recog⟩
    vocabCategory := .Greetings }

/-- `handleSearch` lifted to the whole program state. -/
def appHandleSearch (parseDict : String → Except Unit (Option DictEntry)) (ai : Bool)
    (api : Except Unit String) (s : ProgramState) : ProgramState × List ApiRequest :=
  let r := handleSearch parseDict ai s.dict api
  ({ s with dict := r.1 }, r.2)

/-- `handleCheck` lifted to the whole program state. -/
def appHandleCheck (parseCorr : String → Except Unit (Option (List Correction))) (ai : Bool)
    (api : Except Unit String) (s : ProgramState) : ProgramState × List ApiRequest :=
  let r := handleCheck parseCorr ai s.tc api
  ({ s with tc := r.1 }, r.2)

/-- The speech-recognition result handler lifted to the whole program state. -/
def appRecognitionOnResult (ai : Bool) (transcript : String)
    (api : Except Unit String) (s : ProgramState) : ProgramState × List ApiRequest :=
  let r := recognitionOnResult ai s.pron transcript api
  ({ s with pron := r.1 }, r.2)

/-- `toggleRecording` lifted to the whole program state. -/
def appToggleRecording (s : ProgramState) : ProgramState × List RecognitionCmd :=
  let r := toggleRecording s.pron
  ({ s with pron := r.1 }, r.2)

/-- The `setCategory` click of the `Vocabulary` view (line 334). -/
def appSetCategory (c : VocabCategory) (s : ProgramState) : ProgramState :=
  { s with vocabCategory := c }

/-- The `setActiveTab` click of a nav tab (lines 377-385). -/
def appSetActiveTab (t : String) (s : ProgramState) : ProgramState :=
  { s with activeTab := t }

/-- The dictionary input's `onChange` (line 97). -/
def appSetQuery (q : String) (s : ProgramState) : ProgramState :=
  { s with dict := { s.dict with query := q } }

/-- The correction textarea's `onChange` (line 193). -/
def appSetText (t : String) (s : ProgramState) : ProgramState :=
  { s with tc := { s.tc with text := t } }

/-- The claim that, in every view, a pending request blocks a second one:
the view's request-triggering interaction is disabled while `loading` is
true, or triggering it issues no request. For the pronunciation view the
request-triggering interaction is the record button together with the
recognition-result handler it leads to. -/
def pendingBlocksSecondRequest : Prop :=
  (∀ s : DictState, s.loading = true → dictSearchButtonDisabled s = true) ∧
  (∀ s : TCState, s.loading = true → checkButtonDisabled s = true) ∧
  (∀ s : PronState, s.loading = true →
    recordButtonDisabled s = true ∨
      ∀ ai transcript api, (recognitionOnResult ai s transcript api).2 = [])

/-- A request carries a declared JSON response shape: JSON mime type and a
declared response schema. -/
def requestDeclaresJsonShape (r : ApiRequest) : Prop :=
  r.responseMimeType = some "application/json" ∧ r.hasResponseSchema = true

/-- C4: every invocation of `handleSearch`, `handleCheck` or `getFeedback`
issues at most one request to the external API, and the requests issued are
the same whether the call succeeds or throws: no handler retries on
failure. -/
theorem handlers_issue_at_most_one_request
    (parseDict : String → Except Unit (Option DictEntry))
    (parseCorr : String → Except Unit (Option (List Correction))) (ai : Bool)
    (sd : DictState) (st : TCState) (sp : PronState)
    (api : Except Unit String) (transcript t : String) :
    (handleSearch parseDict ai sd api).2.length ≤ 1 ∧
    (handleCheck parseCorr ai st api).2.length ≤ 1 ∧
    (getFeedback ai sp transcript api).2.length ≤ 1 ∧
    (handleSearch parseDict ai sd (.error ())).2 = (handleSearch parseDict ai sd (.ok t)).2 ∧
    (handleCheck parseCorr ai st (.error ())).2 = (handleCheck parseCorr ai st (.ok t)).2 ∧
    (getFeedback ai sp transcript (.error ())).2 = (getFeedback ai sp transcript (.ok t)).2 := by
  unfold handleSearch handleCheck getFeedback
  by_cases hq : jsTrim sd.query = "" ∨ ai = false <;>
    by_cases ht : jsTrim st.text = "" ∨ ai = false <;>
      by_cases hr : transcript = "" ∨ ai = false <;>
        simp [hq, ht, hr]

/-- C8: when the dictionary query trims to empty, the correction text trims
to empty, and the transcript is empty -- or the AI client failed to
initialize -- each handler returns immediately: the state is unchanged and
no request is issued. -/
theorem empty_input_leaves_state_unchanged
    (parseDict : String → Except Unit (Option DictEntry))
    (parseCorr : String → Except Unit (Option (List Correction))) (ai : Bool)
    (sd : DictState) (st : TCState) (sp : PronState)
    (api : Except Unit String) (transcript : String)
    (hq : jsTrim sd.query = "" ∨ ai = false)
    (ht : jsTrim st.text = "" ∨ ai = false)
    (hr : transcript = "" ∨ ai = false) :
    handleSearch parseDict ai sd api = (sd, []) ∧
    handleCheck parseCorr ai st api = (st, []) ∧
    getFeedback ai sp transcript api = (sp, []) := by
  refine ⟨?_, ?_, ?_⟩
  · unfold handleSearch; rw [if_pos hq]
  · unfold handleCheck; rw [if_pos ht]
  · unfold getFeedback; rw [if_pos hr]

/-- Witness for C8: a whitespace-only query, an empty correction text and an
empty transcript, with the AI client initialized. -/
theorem empty_input_leaves_state_unchanged_witness :
    handleSearch (fun _ => Except.error ()) true ⟨" ", false, "", none⟩ (.ok "x") =
        (⟨" ", false, "", none⟩, []) ∧
    handleCheck (fun _ => Except.error ()) true ⟨"", false, "", none⟩ (.ok "x") =
        (⟨"", false, "", none⟩, []) ∧
    getFeedback true ⟨false, "", "", false, true⟩ "" (.ok "x") =
        (⟨false, "", "", false, true⟩, []) :=
  empty_input_leaves_state_unchanged (fun _ => Except.error ())
    (fun _ => Except.error ()) true ⟨" ", false, "", none⟩ ⟨"", false, "", none⟩
    ⟨false, "", "", false, true⟩ (.ok "x") ""
    (Or.inl (by decide)) (Or.inl (by decide)) (Or.inl rfl)

/-- C9: whenever a handler passes its guard and issues a request, the
resulting state has `loading = false`, whatever the outcome of the call:
the `finally` block clears the flag on success and failure alike. -/
theorem loading_cleared_after_request
    (parseDict : String → Except Unit (Option DictEntry))
    (parseCorr : String → Except Unit (Option (List Correction))) (ai : Bool)
    (sd : DictState) (st : TCState) (sp : PronState)
    (api : Except Unit String) (transcript : String)
    (hq : ¬(jsTrim sd.query = "" ∨ ai = false))
    (ht : ¬(jsTrim st.text = "" ∨ ai = false))
    (hr : ¬(transcript = "" ∨ ai = false)) :
    (handleSearch parseDict ai sd api).1.loading = false ∧
    (handleCheck parseCorr ai st api).1.loading = false ∧
    (getFeedback ai sp transcript api).1.loading = false := by
  refine ⟨?_, ?_, ?_⟩
  · unfold handleSearch; rw [if_neg hq]
  · unfold handleCheck; rw [if_neg ht]
  · unfold getFeedback; rw [if_neg hr]

/-- Witness for C9: concrete nonempty inputs through both the failing call
and the successful call. -/
theorem loading_cleared_after_request_witness :
    (handleSearch (fun _ => Except.error ()) true ⟨"hola", true, "", none⟩
        (.error ())).1.loading = false ∧
    (handleCheck (fun _ => Except.error ()) true ⟨"hi", true, "", none⟩
        (.error ())).1.loading = false ∧
    (getFeedback true ⟨false, "x", "", true, true⟩ "x" (.error ())).1.loading = false :=
  loading_cleared_after_request (fun _ => Except.error ()) (fun _ => Except.error ())
    true ⟨"hola", true, "", none⟩ ⟨"hi", true, "", none⟩ ⟨false, "x", "", true, true⟩
    (.error ()) "x" (by decide) (by decide) (by decide)

/-- C2: whenever the external call throws (`api = .error`), or the call
succeeds and `JSON.parse` of the reply throws, the enclosing handler catches
the exception and sets the UI state to its fixed generic error message:
`error` for the dictionary and text-correction handlers, `feedback` for the
pronunciation feedback handler. -/
theorem failures_caught_with_generic_message
    (parseDict : String → Except Unit (Option DictEntry))
    (parseCorr : String → Except Unit (Option (List Correction))) (ai : Bool)
    (sd : DictState) (st : TCState) (sp : PronState) (transcript t : String)
    (hq : ¬(jsTrim sd.query = "" ∨ ai = false))
    (ht : ¬(jsTrim st.text = "" ∨ ai = false))
    (hr : ¬(transcript = "" ∨ ai = false))
    (hpd : parseDict t = .error ())
    (hpc : parseCorr t = .error ()) :
    (handleSearch parseDict ai sd (.error ())).1.error = dictErrorMessage ∧
    (handleSearch parseDict ai sd (.ok t)).1.error = dictErrorMessage ∧
    (handleCheck parseCorr ai st (.error ())).1.error = checkErrorMessage ∧
    (handleCheck parseCorr ai st (.ok t)).1.error = checkErrorMessage ∧
    (getFeedback ai sp transcript (.error ())).1.feedback = feedbackErrorMessage := by
  refine ⟨?_, ?_, ?_, ?_, ?_⟩
  · unfold handleSearch; rw [if_neg hq]
  · unfold handleSearch; rw [if_neg hq]; simp [hpd]
  · unfold handleCheck; rw [if_neg ht]
  · unfold handleCheck; rw [if_neg ht]; simp [hpc]
  · unfold getFeedback; rw [if_neg hr]

/-- Witness for C2: a failing call and a reply whose parse fails, on
concrete nonempty inputs. -/
theorem failures_caught_with_generic_message_witness :
    (handleSearch (fun _ => Except.error ()) true ⟨"hola", false, "", none⟩
        (.error ())).1.error = dictErrorMessage ∧
    (handleSearch (fun _ => Except.error ()) true ⟨"hola", false, "", none⟩
        (.ok "not json")).1.error = dictErrorMessage ∧
    (handleCheck (fun _ => Except.error ()) true ⟨"hi", false, "", none⟩
        (.error ())).1.error = checkErrorMessage ∧
    (handleCheck (fun _ => Except.error ()) true ⟨"hi", false, "", none⟩
        (.ok "not json")).1.error = checkErrorMessage ∧
    (getFeedback true ⟨false, "x", "", false, true⟩ "x"
        (.error ())).1.feedback = feedbackErrorMessage :=
  failures_caught_with_generic_message (fun _ => Except.error ())
    (fun _ => Except.error ()) true ⟨"hola", false, "", none⟩ ⟨"hi", false, "", none⟩
    ⟨false, "x", "", false, true⟩ "x" "not json"
    (by decide) (by decide) (by decide) rfl rfl

/-- C10 counterexample: a reply like "null" parses without throwing in
`handleSearch` but `setResult(null)` leaves the result unset, and a reply
like "[]" parses in `handleCheck` but `data.corrections` is undefined and
`setCorrections(undefined)` leaves the corrections unset -- in both views
the error stays empty and the result stays absent, so neither of the two is
set, refuting "afterwards exactly one of them is set". -/
theorem parsed_null_sets_neither :
    (handleSearch (fun _ => Except.ok none) true ⟨"hola", false, "", none⟩
        (.ok "null")).1.error = "" ∧
    (handleSearch (fun _ => Except.ok none) true ⟨"hola", false, "", none⟩
        (.ok "null")).1.result = none ∧
    (handleCheck (fun _ => Except.ok none) true ⟨"hi", false, "", none⟩
        (.ok "[]")).1.error = "" ∧
    (handleCheck (fun _ => Except.ok none) true ⟨"hi", false, "", none⟩
        (.ok "[]")).1.corrections = none ∧
    ¬ ((handleSearch (fun _ => Except.ok none) true ⟨"hola", false, "", none⟩
          (.ok "null")).1.error ≠ "" ∨
        ((handleSearch (fun _ => Except.ok none) true ⟨"hola", false, "", none⟩
          (.ok "null")).1.result).isSome = true) := by
  refine ⟨rfl, rfl, rfl, rfl, ?_⟩
  rintro (h | h)
  · exact h rfl
  · exact Bool.noConfusion h

/-- C10 amended: in the Dictionary and TextCorrection views the error
message and the result are never both set: the handler clears both before
issuing the request, and afterwards at most one of them is set -- the error
message exactly when the call or the parse throws (the result then absent),
the result exactly when the reply parses to a present value -- while a reply
that parses to a null result, or to an object without the corrections array,
leaves neither set. -/
theorem error_and_result_exclusive
    (parseDict : String → Except Unit (Option DictEntry))
    (parseCorr : String → Except Unit (Option (List Correction))) (ai : Bool)
    (sd : DictState) (st : TCState) (api : Except Unit String)
    (t t0 : String) (d : DictEntry) (cs : List Correction)
    (hq : ¬(jsTrim sd.query = "" ∨ ai = false))
    (ht : ¬(jsTrim st.text = "" ∨ ai = false))
    (hpd : parseDict t = .ok (some d))
    (hpc : parseCorr t = .ok (some cs))
    (hpd0 : parseDict t0 = .ok none)
    (hpc0 : parseCorr t0 = .ok none) :
    (dictPending sd).error = "" ∧ (dictPending sd).result = none ∧
    (checkPending st).error = "" ∧ (checkPending st).corrections = none ∧
    (¬((handleSearch parseDict ai sd api).1.error ≠ "" ∧
        ((handleSearch parseDict ai sd api).1.result).isSome = true)) ∧
    (handleSearch parseDict ai sd (.error ())).1.error = dictErrorMessage ∧
    (handleSearch parseDict ai sd (.error ())).1.result = none ∧
    (handleSearch parseDict ai sd (.ok t)).1.error = "" ∧
    (handleSearch parseDict ai sd (.ok t)).1.result = some d ∧
    (handleSearch parseDict ai sd (.ok t0)).1.error = "" ∧
    (handleSearch parseDict ai sd (.ok t0)).1.result = none ∧
    (¬((handleCheck parseCorr ai st api).1.error ≠ "" ∧
        ((handleCheck parseCorr ai st api).1.corrections).isSome = true)) ∧
    (handleCheck parseCorr ai st (.error ())).1.error = checkErrorMessage ∧
    (handleCheck parseCorr ai st (.error ())).1.corrections = none ∧
    (handleCheck parseCorr ai st (.ok t)).1.error = "" ∧
    (handleCheck parseCorr ai st (.ok t)).1.corrections = some cs ∧
    (handleCheck parseCorr ai st (.ok t0)).1.error = "" ∧
    (handleCheck parseCorr ai st (.ok t0)).1.corrections = none := by
  refine ⟨rfl, rfl, rfl, rfl, ?_, ?_, ?_, ?_, ?_, ?_, ?_, ?_, ?_, ?_, ?_, ?_, ?_, ?_⟩
  · unfold handleSearch; rw [if_neg hq]
    cases api with
    | error e =>
        rintro ⟨-, hs⟩
        exact Bool.noConfusion hs
    | ok u =>
        cases hp : parseDict u with
        | error e =>
            simp only [hp]
            rintro ⟨-, hs⟩
            exact Bool.noConfusion hs
        | ok od =>
            simp only [hp]
            rintro ⟨he, -⟩
            exact he rfl
  · unfold handleSearch; rw [if_neg hq]
  · unfold handleSearch; rw [if_neg hq]; rfl
  · unfold handleSearch; rw [if_neg hq]; simp [hpd, dictPending]
  · unfold handleSearch; rw [if_neg hq]; simp [hpd]
  · unfold handleSearch; rw [if_neg hq]; simp [hpd0, dictPending]
  · unfold handleSearch; rw [if_neg hq]; simp [hpd0, dictPending]
  · unfold handleCheck; rw [if_neg ht]
    cases api with
    | error e =>
        rintro ⟨-, hs⟩
        exact Bool.noConfusion hs
    | ok u =>
        cases hp : parseCorr u with
        | error e =>
            simp only [hp]
            rintro ⟨-, hs⟩
            exact Bool.noConfusion hs
        | ok oc =>
            simp only [hp]
            rintro ⟨he, -⟩
            exact he rfl
  · unfold handleCheck; rw [if_neg ht]
  · unfold handleCheck; rw [if_neg ht]; rfl
  · unfold handleCheck; rw [if_neg ht]; simp [hpc, checkPending]
  · unfold handleCheck; rw [if_neg ht]; simp [hpc]
  · unfold handleCheck; rw [if_neg ht]; simp [hpc0, checkPending]
  · unfold handleCheck; rw [if_neg ht]; simp [hpc0, checkPending]

/-- Witness for the amended C10: concrete nonempty inputs through the
throwing call, the present parse and the null parse. -/
theorem error_and_result_exclusive_witness :
    (dictPending ⟨"hola", false, "", none⟩).error = "" ∧
    (dictPending ⟨"hola", false, "", none⟩).result = none ∧
    (checkPending ⟨"hi", false, "", none⟩).error = "" ∧
    (checkPending ⟨"hi", false, "", none⟩).corrections = none ∧
    (¬((handleSearch
          (fun u => if u = "null" then Except.ok none
            else Except.ok (some ⟨"hola", "hello", "a greeting", "Hola, amigo.", "en"⟩))
          true ⟨"hola", false, "", none⟩ (.ok "reply")).1.error ≠ "" ∧
        ((handleSearch
          (fun u => if u = "null" then Except.ok none
            else Except.ok (some ⟨"hola", "hello", "a greeting", "Hola, amigo.", "en"⟩))
          true ⟨"hola", false, "", none⟩ (.ok "reply")).1.result).isSome = true)) ∧
    (handleSearch
        (fun u => if u = "null" then Except.ok none
          else Except.ok (some ⟨"hola", "hello", "a greeting", "Hola, amigo.", "en"⟩))
        true ⟨"hola", false, "", none⟩ (.error ())).1.error = dictErrorMessage ∧
    (handleSearch
        (fun u => if u = "null" then Except.ok none
          else Except.ok (some ⟨"hola", "hello", "a greeting", "Hola, amigo.", "en"⟩))
        true ⟨"hola", false, "", none⟩ (.error ())).1.result = none ∧
    (handleSearch
        (fun u => if u = "null" then Except.ok none
          else Except.ok (some ⟨"hola", "hello", "a greeting", "Hola, amigo.", "en"⟩))
        true ⟨"hola", false, "", none⟩ (.ok "reply")).1.error = "" ∧
    (handleSearch
        (fun u => if u = "null" then Except.ok none
          else Except.ok (some ⟨"hola", "hello", "a greeting", "Hola, amigo.", "en"⟩))
        true ⟨"hola", false, "", none⟩ (.ok "reply")).1.result =
      some ⟨"hola", "hello", "a greeting", "Hola, amigo.", "en"⟩ ∧
    (handleSearch
        (fun u => if u = "null" then Except.ok none
          else Except.ok (some ⟨"hola", "hello", "a greeting", "Hola, amigo.", "en"⟩))
        true ⟨"hola", false, "", none⟩ (.ok "null")).1.error = "" ∧
    (handleSearch
        (fun u => if u = "null" then Except.ok none
          else Except.ok (some ⟨"hola", "hello", "a greeting", "Hola, amigo.", "en"⟩))
        true ⟨"hola", false, "", none⟩ (.ok "null")).1.result = none ∧
    (¬((handleCheck
          (fun u => if u = "null" then Except.ok none else Except.ok (some []))
          true ⟨"hi", false, "", none⟩ (.ok "reply")).1.error ≠ "" ∧
        ((handleCheck
          (fun u => if u = "null" then Except.ok none else Except.ok (some []))
          true ⟨"hi", false, "", none⟩ (.ok "reply")).1.corrections).isSome = true)) ∧
    (handleCheck (fun u => if u = "null" then Except.ok none else Except.ok (some []))
        true ⟨"hi", false, "", none⟩ (.error ())).1.error = checkErrorMessage ∧
    (handleCheck (fun u => if u = "null" then Except.ok none else Except.ok (some []))
        true ⟨"hi", false, "", none⟩ (.error ())).1.corrections = none ∧
    (handleCheck (fun u => if u = "null" then Except.ok none else Except.ok (some []))
        true ⟨"hi", false, "", none⟩ (.ok "reply")).1.error = "" ∧
    (handleCheck (fun u => if u = "null" then Except.ok none else Except.ok (some []))
        true ⟨"hi", false, "", none⟩ (.ok "reply")).1.corrections = some [] ∧
    (handleCheck (fun u => if u = "null" then Except.ok none else Except.ok (some []))
        true ⟨"hi", false, "", none⟩ (.ok "null")).1.error = "" ∧
    (handleCheck (fun u => if u = "null" then Except.ok none else Except.ok (some []))
        true ⟨"hi", false, "", none⟩ (.ok "null")).1.corrections = none :=
  error_and_result_exclusive
    (fun u => if u = "null" then Except.ok none
      else Except.ok (some ⟨"hola", "hello", "a greeting", "Hola, amigo.", "en"⟩))
    (fun u => if u = "null" then Except.ok none else Except.ok (some []))
    true ⟨"hola", false, "", none⟩ ⟨"hi", false, "", none⟩ (.ok "reply")
    "reply" "null" ⟨"hola", "hello", "a greeting", "Hola, amigo.", "en"⟩ []
    (by decide) (by decide) rfl rfl rfl rfl

/-- C5 counterexample: when the GoogleGenAI client failed to initialize,
`App` returns the error screen early (lines 361-368): zero tab buttons and
zero tab contents are rendered, refuting the unconditional claim of exactly
three tabs with one content shown. -/
theorem app_error_screen_has_no_tabs :
    (renderedTabButtons false).length = 0 ∧
    (renderedTabContents false initialActiveTab).length = 0 ∧
    ¬ ((renderedTabButtons false).length = 3 ∧
        (renderedTabContents false initialActiveTab).length = 1) := by
  decide

/-- C5 amended: if the AI client initialized, `App` renders exactly three
top-level tab buttons and, for every reachable `activeTab` value, exactly
one tab's content; if initialization failed, it renders the error screen
with no tabs and no tab content. -/
theorem app_renders_three_tabs_one_content (a : String)
    (ha : reachableActiveTab a) :
    (renderedTabButtons true).length = 3 ∧
    (renderedTabContents true a).length = 1 ∧
    (renderedTabButtons false).length = 0 ∧
    (renderedTabContents false a).length = 0 := by
  refine ⟨rfl, ?_, rfl, rfl⟩
  rcases ha with rfl | h
  · rfl
  · simp only [tabNames, List.mem_cons, List.not_mem_nil, or_false] at h
    rcases h with rfl | rfl | rfl <;> rfl

/-- Witness for the amended C5: the practice tab active. -/
theorem app_renders_three_tabs_one_content_witness :
    (renderedTabButtons true).length = 3 ∧
    (renderedTabContents true "practice").length = 1 ∧
    (renderedTabButtons false).length = 0 ∧
    (renderedTabContents false "practice").length = 0 :=
  app_renders_three_tabs_one_content "practice" (Or.inr (by simp [tabNames]))

/-- C6: the vocabulary table maps the three categories to fixed phrase-pair
lists of four entries each, the program starts with exactly this table, and
no operation of the program (any handler, any click) changes it. -/
theorem vocabulary_table_static (recog : Bool)
    (parseDict : String → Except Unit (Option DictEntry))
    (parseCorr : String → Except Unit (Option (List Correction))) (ai : Bool)
    (api : Except Unit String) (transcript q tx t : String)
    (c : VocabCategory) (s : ProgramState) :
    (initialProgramState recog).vocab = vocabularyData ∧
    (∀ cat, ((initialProgramState recog).vocab cat).length = 4) ∧
    (appHandleSearch parseDict ai api s).1.vocab = s.vocab ∧
    (appHandleCheck parseCorr ai api s).1.vocab = s.vocab ∧
    (appRecognitionOnResult ai transcript api s).1.vocab = s.vocab ∧
    (appToggleRecording s).1.vocab = s.vocab ∧
    (appSetCategory c s).vocab = s.vocab ∧
    (appSetActiveTab t s).vocab = s.vocab ∧
    (appSetQuery q s).vocab = s.vocab ∧
    (appSetText tx s).vocab = s.vocab := by
  refine ⟨rfl, ?_, rfl, rfl, rfl, rfl, rfl, rfl, rfl, rfl⟩
  intro cat
  cases cat <;> rfl

/-- C7: every speech-synthesis call site supplies both a text and a language
tag -- the dictionary pronounce button speaks the translation in the
translated language code, `speakPhrase` speaks the target phrase as en-US,
and the vocabulary buttons speak Spanish as es-ES and English as en-US --
and the speech-recognition result handler stores the transcript into the
`transcribedText` UI state. -/
theorem speech_calls_have_text_and_lang (t l : String) (r : DictEntry)
    (item : PhrasePair) (ai : Bool) (sp : PronState) (transcript : String)
    (api : Except Unit String) :
    speak t l = ⟨t, l⟩ ∧
    dictPronounceUtterance r = ⟨r.translation, r.translated_lang_code⟩ ∧
    speakPhrase = ⟨PHRASE, "en-US"⟩ ∧
    vocabSpeakSpanish item = ⟨item.spanish, "es-ES"⟩ ∧
    vocabSpeakEnglish item = ⟨item.english, "en-US"⟩ ∧
    (recognitionOnResult ai sp transcript api).1.transcribedText = transcript := by
  refine ⟨rfl, rfl, rfl, rfl, rfl, ?_⟩
  unfold recognitionOnResult getFeedback
  split
  · rfl
  · cases api <;> rfl

/-- C1 counterexample: the pronunciation feedback handler issues its request
with no declared JSON response shape (no response mime type, no response
schema), and stores the raw reply text into state rather than a parsed JSON
value -- refuting the claim that every request handler declares a JSON
response shape and parses the JSON reply. -/
theorem feedback_request_has_no_json_shape :
    (getFeedback true ⟨false, "hello", "", false, true⟩ "hello" (.ok "Great job")).2 =
        [feedbackRequest "hello"] ∧
    ¬ requestDeclaresJsonShape (feedbackRequest "hello") ∧
    (getFeedback true ⟨false, "hello", "", false, true⟩ "hello"
        (.ok "Great job")).1.feedback = "Great job" := by
  refine ⟨rfl, ?_, rfl⟩
  intro h
  exact Option.noConfusion h.1

/-- C1 amended: the dictionary-search and text-correction handlers build a
prompt string from their input, issue exactly one request with a declared
JSON response shape, and store the parsed JSON reply into local state; the
pronunciation feedback handler builds a prompt string, issues exactly one
request with no declared response shape, and stores the raw reply text
directly into local state. -/
theorem handlers_build_prompt_one_request
    (parseDict : String → Except Unit (Option DictEntry))
    (parseCorr : String → Except Unit (Option (List Correction))) (ai : Bool)
    (sd : DictState) (st : TCState) (sp : PronState)
    (api : Except Unit String) (transcript t : String)
    (d : DictEntry) (cs : List Correction)
    (hq : ¬(jsTrim sd.query = "" ∨ ai = false))
    (ht : ¬(jsTrim st.text = "" ∨ ai = false))
    (hr : ¬(transcript = "" ∨ ai = false))
    (hpd : parseDict t = .ok (some d))
    (hpc : parseCorr t = .ok (some cs)) :
    (handleSearch parseDict ai sd api).2 = [dictSearchRequest sd.query] ∧
    (dictSearchRequest sd.query).contents = dictSearchPrompt sd.query ∧
    requestDeclaresJsonShape (dictSearchRequest sd.query) ∧
    (handleSearch parseDict ai sd (.ok t)).1.result = some d ∧
    (handleCheck parseCorr ai st api).2 = [checkRequest st.text] ∧
    (checkRequest st.text).contents = checkPrompt st.text ∧
    requestDeclaresJsonShape (checkRequest st.text) ∧
    (handleCheck parseCorr ai st (.ok t)).1.corrections = some cs ∧
    (getFeedback ai sp transcript api).2 = [feedbackRequest transcript] ∧
    (feedbackRequest transcript).contents = feedbackPrompt transcript ∧
    (feedbackRequest transcript).responseMimeType = none ∧
    (feedbackRequest transcript).hasResponseSchema = false ∧
    (getFeedback ai sp transcript (.ok t)).1.feedback = t := by
  refine ⟨?_, rfl, ⟨rfl, rfl⟩, ?_, ?_, rfl, ⟨rfl, rfl⟩, ?_, ?_, rfl, rfl, rfl, ?_⟩
  · unfold handleSearch; rw [if_neg hq]
  · unfold handleSearch; rw [if_neg hq]; simp [hpd]
  · unfold handleCheck; rw [if_neg ht]
  · unfold handleCheck; rw [if_neg ht]; simp [hpc]
  · unfold getFeedback; rw [if_neg hr]
  · unfold getFeedback; rw [if_neg hr]

/-- Witness for the amended C1: concrete inputs through all three handlers
with a successful call and parse. -/
theorem handlers_build_prompt_one_request_witness :
    (handleSearch (fun _ => Except.ok (some ⟨"hola", "hello", "a greeting", "Hola, amigo.", "en"⟩))
        true ⟨"hola", false, "", none⟩ (.ok "reply")).2 = [dictSearchRequest "hola"] ∧
    (dictSearchRequest "hola").contents = dictSearchPrompt "hola" ∧
    requestDeclaresJsonShape (dictSearchRequest "hola") ∧
    (handleSearch (fun _ => Except.ok (some ⟨"hola", "hello", "a greeting", "Hola, amigo.", "en"⟩))
        true ⟨"hola", false, "", none⟩ (.ok "reply")).1.result =
      some ⟨"hola", "hello", "a greeting", "Hola, amigo.", "en"⟩ ∧
    (handleCheck (fun _ => Except.ok (some [])) true ⟨"hi", false, "", none⟩
        (.ok "reply")).2 = [checkRequest "hi"] ∧
    (checkRequest "hi").contents = checkPrompt "hi" ∧
    requestDeclaresJsonShape (checkRequest "hi") ∧
    (handleCheck (fun _ => Except.ok (some [])) true ⟨"hi", false, "", none⟩
        (.ok "reply")).1.corrections = some [] ∧
    (getFeedback true ⟨false, "x", "", false, true⟩ "x" (.ok "reply")).2 =
        [feedbackRequest "x"] ∧
    (feedbackRequest "x").contents = feedbackPrompt "x" ∧
    (feedbackRequest "x").responseMimeType = none ∧
    (feedbackRequest "x").hasResponseSchema = false ∧
    (getFeedback true ⟨false, "x", "", false, true⟩ "x" (.ok "reply")).1.feedback = "reply" :=
  handlers_build_prompt_one_request
    (fun _ => Except.ok (some ⟨"hola", "hello", "a greeting", "Hola, amigo.", "en"⟩))
    (fun _ => Except.ok (some [])) true ⟨"hola", false, "", none⟩ ⟨"hi", false, "", none⟩
    ⟨false, "x", "", false, true⟩ (.ok "reply") "x" "reply"
    ⟨"hola", "hello", "a greeting", "Hola, amigo.", "en"⟩ []
    (by decide) (by decide) (by decide) rfl rfl

/-- C3 counterexample: in the pronunciation view a second request can be
started while one is pending -- the record button is never disabled, and the
recognition-result handler issues a request from a state whose loading flag
is still true -- refuting the claim that no second request can be started
from a view until its busy flag is cleared. -/
theorem pending_does_not_block_second_request : ¬ pendingBlocksSecondRequest := by
  intro h
  rcases h.2.2 ⟨false, "", "", true, true⟩ rfl with hbtn | hreq
  · exact Bool.noConfusion hbtn
  · have h2 := hreq true "hi" (.ok "ok")
    rw [show recognitionOnResult true ⟨false, "", "", true, true⟩ "hi" (.ok "ok") =
        (⟨false, "hi", "ok", false, true⟩, [feedbackRequest "hi"]) from rfl] at h2
    exact List.noConfusion h2

/-- C3 amended: while a handler's request is pending the view's loading flag
is true; in the Dictionary and TextCorrection views the triggering button is
disabled exactly while loading, so no second request can be started there;
in the pronunciation view the record button is never disabled and a second
feedback request can be issued before the flag is cleared. -/
theorem busy_flag_serializes_per_view (sd : DictState) (st : TCState) (sp : PronState) :
    (dictPending sd).loading = true ∧
    dictSearchButtonDisabled (dictPending sd) = true ∧
    (checkPending st).loading = true ∧
    checkButtonDisabled (checkPending st) = true ∧
    (pronPending sp).loading = true ∧
    recordButtonDisabled (pronPending sp) = false ∧
    (recognitionOnResult true (pronPending sp) "hi" (.ok "ok")).2 =
      [feedbackRequest "hi"] := by
  exact ⟨rfl, rfl, rfl, rfl, rfl, rfl, rfl⟩

end LearningHub
